import Mathlib

/-!
Verification development for `src/train/torch/iteration.py`, a training-loop
harness (single-pass trainer, epoch controller, k-fold cross-validation
controller, checkpoint store).  Python floats are modelled as exact rationals
(`ℚ`); the one irrational quantity, `np.std`'s square root, lives in `ℝ`.
The external collaborators (model, optimizer, loss function) are modelled as
an abstract deterministic environment `TorchEnv`; batches carry their leading
dimension (`batch[0].size(0)`) and an abstract payload.
-/

set_option maxHeartbeats 1000000

/-- One batch produced by a data loader.  `size` is `batch[0].size(0)`, the
leading dimension of the first input tensor; `payload` abstracts the tensor
contents (inputs and target) that the model/loss environment consumes. -/
structure Batch (β : Type) where
  size : Nat
  payload : β

/-- The pair of data loaders `{"train": ..., "val": ...}` handed to the
single-pass trainer.  A Python `DataLoader` is modelled as the finite ordered
list of batches it yields; note that Python's `len` of a `DataLoader` is the
number of batches it yields, i.e. the length of this list. -/
structure Feeds (β : Type) where
  train : List (Batch β)
  val : List (Batch β)

/-- Deterministic model / loss-function / optimizer environment.
`fwdLoss m b` is `loss_func(training_model(*batch[0:-1]), batch[-1]).item()`
for parameters `m` on batch payload `b`; `backward` is the gradient produced
by `current_loss.backward()`; `stepP`/`stepO` are the effect of one
`optimizer.step()` on the model parameters and on the optimizer's internal
state (`optimizer.state_dict()`), given the current gradient. -/
structure TorchEnv (μ γ ω β : Type) where
  fwdLoss : μ → β → ℚ
  backward : μ → β → γ
  stepP : μ → γ → ω → μ
  stepO : μ → γ → ω → ω

/-- The mutable state threaded through training: model parameters, the
parameter gradient slots (`p.grad`, cleared by `optimizer.zero_grad()`;
these live on the parameters and are not part of `optimizer.state_dict()`),
the optimizer's internal state, and the model's train/eval mode flag. -/
structure SimState (μ γ ω : Type) where
  params : μ
  grad : Option γ
  opt : ω
  training : Bool

/-- `training_model.train()`. -/
def model_train (st : SimState μ γ ω) : SimState μ γ ω :=
  { st with training := true }

/-- `training_model.eval()`. -/
def model_eval (st : SimState μ γ ω) : SimState μ γ ω :=
  { st with training := false }

/-- The body of the per-batch loop of `train_single_fold`:
`optimizer.zero_grad()` (clears `p.grad`); move tensors to the device
(value-preserving, not modelled); forward pass and loss; if in the train
phase, `current_loss.backward()` then `optimizer.step()`.  Returns the new
state and `current_loss.item()`. -/
def run_batch (T : TorchEnv μ γ ω β) (isTrain : Bool) (st : SimState μ γ ω)
    (b : Batch β) : SimState μ γ ω × ℚ :=
  let st1 : SimState μ γ ω := { st with grad := none }
  let l := T.fwdLoss st1.params b.payload
  if isTrain then
    let g := T.backward st1.params b.payload
    (⟨T.stepP st1.params g st1.opt, some g, T.stepO st1.params g st1.opt,
      st1.training⟩, l)
  else
    (st1, l)

/-- One step of the accumulation `loss_epoch += current_loss.item() * batch[0].size(0)`. -/
def phase_step (T : TorchEnv μ γ ω β) (isTrain : Bool)
    (acc : SimState μ γ ω × ℚ) (b : Batch β) : SimState μ γ ω × ℚ :=
  let r := run_batch T isTrain acc.1 b
  (r.1, acc.2 + r.2 * (b.size : ℚ))

/-- One phase (`"train"` or `"val"`) of `train_single_fold`: iterate over all
batches of the phase's loader, returning the final state and the accumulated
`loss_epoch`. -/
def run_phase (T : TorchEnv μ γ ω β) (isTrain : Bool) (bs : List (Batch β))
    (st : SimState μ γ ω) : SimState μ γ ω × ℚ :=
  bs.foldl (phase_step T isTrain) (st, 0)

/-- `train_single_fold` (lines 150-211): one training pass then one validation
pass.  `dset_size[s] = len(dloader[s])` is the number of batches of the phase
loader (Python `len` of a `DataLoader`), and the mean appended for each phase
is `loss_epoch / dset_size[dataset]`.  Returns the final state and the list
`[train_mean, val_mean]`. -/
def train_single_fold (T : TorchEnv μ γ ω β) (dloader : Feeds β)
    (st : SimState μ γ ω) : SimState μ γ ω × List ℚ :=
  let st1 := model_train st
  let trainRun := run_phase T true dloader.train st1
  let trainMean := trainRun.2 / (dloader.train.length : ℚ)
  let st2 := model_eval trainRun.1
  let valRun := run_phase T false dloader.val st2
  let valMean := valRun.2 / (dloader.val.length : ℚ)
  (valRun.1, [trainMean, valMean])

/-- A value stored in the serialized checkpoint record, tagged by which kind
of payload it is (epoch number, model state dict, optimizer state dict, loss
history dict, best loss). -/
inductive CkptField (μ ω L : Type) where
  | ofNat : Nat → CkptField μ ω L
  | ofModel : μ → CkptField μ ω L
  | ofOptim : ω → CkptField μ ω L
  | ofLoss : L → CkptField μ ω L
  | ofRat : ℚ → CkptField μ ω L

/-- One file written by `torch.save` in `save_checkpoints`: the destination
path, the suffix used to derive it, and the inputs of the serialized record. -/
structure SavedFile (μ ω L : Type) where
  path : String
  suffix : String
  epoch : Nat
  model_state : μ
  optimizer_state : ω
  loss : L
  best_loss : ℚ

/-- The serialized record (the Python dict passed to `torch.save` at lines
137-146), as an ordered association list of field name and value. -/
def SavedFile.record (f : SavedFile μ ω L) : List (String × CkptField μ ω L) :=
  [("epoch", CkptField.ofNat f.epoch),
   ("model_state_dict", CkptField.ofModel f.model_state),
   ("optimizer_state_dict", CkptField.ofOptim f.optimizer_state),
   ("loss", CkptField.ofLoss f.loss),
   ("best_loss", CkptField.ofRat f.best_loss)]

/-- `save_checkpoints` (lines 105-147), for a call in which every argument is
bound to its intended parameter: writes the record to
`{root_path}/{model_name}_{suffix}.ckpt`.  (In the Python signature `suffix`
defaults to `"latest"`; callers here always pass it explicitly.) -/
def save_checkpoints (params : μ) (opt : ω) (root_path model_name : String)
    (loss : L) (e : Nat) (best_loss : ℚ) (suffix : String) : SavedFile μ ω L :=
  { path := root_path ++ "/" ++ model_name ++ "_" ++ suffix ++ ".ckpt",
    suffix := suffix,
    epoch := e,
    model_state := params,
    optimizer_state := opt,
    loss := loss,
    best_loss := best_loss }

/-- The loss-history dict of `train_model`: `{"train": [...], "val": [...]}`. -/
structure TMLoss where
  train : List ℚ
  val : List ℚ
deriving DecidableEq

/-- Observable state of one `train_model` run: the threaded model/optimizer
state, the loss-history dict (mutated in place by the Python code), the
current best validation loss, and the checkpoint files written so far. -/
structure TMRun (μ γ ω : Type) where
  sim : SimState μ γ ω
  loss : TMLoss
  best : ℚ
  saved : List (SavedFile μ ω TMLoss)

/-- A Python exception raised while executing the harness. -/
inductive PyErr where
  | typeError
deriving DecidableEq

/-- One epoch of the body of `train_model` (lines 64-99), faithful to the
source.  Both `save_checkpoints` call sites in `train_model` pass
`root_path` as the third positional argument, which Python binds to the
`logger` parameter of `save_checkpoints` (lines 105-115), and then also pass
`logger=logger` by keyword; Python therefore raises
`TypeError: got multiple values for argument 'logger'` before the body of
`save_checkpoints` runs (the `loss` parameter is also left unbound).  So the
epoch appends the two losses, updates the best loss if the new validation
loss improves on it, and then aborts with a `TypeError` at the first
checkpoint save; no file is ever written. -/
def tm_epoch (T : TorchEnv μ γ ω β) (dloader : Feeds β) (_e : Nat)
    (r : TMRun μ γ ω) : TMRun μ γ ω × Option PyErr :=
  let fr := train_single_fold T dloader r.sim
  let lossT := r.loss.train ++ [fr.2.getD 0 0]
  let lossV := r.loss.val ++ [fr.2.getD 1 0]
  if lossV.getLastD 0 < r.best then
    (⟨fr.1, ⟨lossT, lossV⟩, lossV.getLastD 0, r.saved⟩, some PyErr.typeError)
  else
    (⟨fr.1, ⟨lossT, lossV⟩, r.best, r.saved⟩, some PyErr.typeError)

/-- The epoch loop `for e in range(start_epoch, start_epoch + epoches)` with
Python exception propagation: the first epoch that raises aborts the loop. -/
def tm_loop (T : TorchEnv μ γ ω β) (dloader : Feeds β) :
    List Nat → TMRun μ γ ω → TMRun μ γ ω × Option PyErr
  | [], r => (r, none)
  | e :: es, r =>
    match tm_epoch T dloader e r with
    | (r1, none) => tm_loop T dloader es r1
    | (r1, some err) => (r1, some err)

/-- `train_model` (lines 30-102), faithful to the source: run the epochs from
`start_epoch` to `start_epoch + epoches`, stopping at the first raised
exception.  The caller-owned history dict and best loss enter through `r0`;
the returned `TMRun` is the observable state when the call returns or raises. -/
def train_model (T : TorchEnv μ γ ω β) (dloader : Feeds β)
    (start_epoch epoches : Nat) (r0 : TMRun μ γ ω) :
    TMRun μ γ ω × Option PyErr :=
  tm_loop T dloader (List.range' start_epoch epoches) r0

/-- Modelled from the spec: one epoch of the Epoch Controller with a working
Checkpoint Store call (spec 4.2 and 4.4 intend
`save(model, optimizer, root_path, name, loss_history, epoch, best_loss, suffix)`
to succeed; in the source the call raises `TypeError`, see `tm_epoch`).
If the new validation loss improves on the best, update it and write a
`"best"` checkpoint; always write a `"latest"` checkpoint carrying the
current epoch index and current best loss. -/
def tm_epoch_spec (T : TorchEnv μ γ ω β) (dloader : Feeds β)
    (root_path model_name : String) (e : Nat) (r : TMRun μ γ ω) : TMRun μ γ ω :=
  let fr := train_single_fold T dloader r.sim
  let lossT := r.loss.train ++ [fr.2.getD 0 0]
  let lossV := r.loss.val ++ [fr.2.getD 1 0]
  let v := lossV.getLastD 0
  let best1 := if v < r.best then v else r.best
  let savedB : List (SavedFile μ ω TMLoss) :=
    if v < r.best then
      [save_checkpoints fr.1.params fr.1.opt root_path model_name
        ⟨lossT, lossV⟩ e best1 "best"]
    else []
  let fileL := save_checkpoints fr.1.params fr.1.opt root_path model_name
    ⟨lossT, lossV⟩ e best1 "latest"
  ⟨fr.1, ⟨lossT, lossV⟩, best1, r.saved ++ savedB ++ [fileL]⟩

/-- Modelled from the spec: the Epoch Controller (spec 4.2) with the working
Checkpoint Store of `tm_epoch_spec`; epoch numbering is absolute. -/
def train_model_spec (T : TorchEnv μ γ ω β) (dloader : Feeds β)
    (root_path model_name : String) (start_epoch epoches : Nat)
    (r0 : TMRun μ γ ω) : TMRun μ γ ω :=
  (List.range' start_epoch epoches).foldl
    (fun r e => tm_epoch_spec T dloader root_path model_name e r) r0

/-- A call to `train_model` with Python default-argument semantics for the
parameter `loss: Dict[str, list] = {"train": [], "val": []}` (line 40): the
default dict object is created once, when the function is defined, and every
call that does not pass `loss` uses (and mutates in place) that same object.
`dflt` is the current contents of the default object; the returned `TMLoss`
is its contents after the call (changed exactly when `lossArg` is `none`).
The in-place mutation happens before the `TypeError` is raised, so it is
observable even though the call raises. -/
def train_model_call (T : TorchEnv μ γ ω β) (dloader : Feeds β)
    (start_epoch epoches : Nat) (best0 : ℚ) (sim0 : SimState μ γ ω)
    (dflt : TMLoss) (lossArg : Option TMLoss) :
    (TMRun μ γ ω × Option PyErr) × TMLoss :=
  let l0 := lossArg.getD dflt
  let p := train_model T dloader start_epoch epoches ⟨sim0, l0, best0, []⟩
  (p, if lossArg.isNone then p.1.loss else dflt)

/-- A linear congruential step, the pseudo-random number stream driving the
modelled shuffle. -/
def lcg (s : Nat) : Nat := (1103515245 * s + 12345) % 2147483648

/-- Fuel-indexed Fisher-Yates draw: repeatedly pick a pseudo-random element
of the remaining pool and remove it.  With `fuel = pool.length` this produces
a permutation of the pool. -/
def fyAux : Nat → List Nat → Nat → List Nat
  | 0, _, _ => []
  | fuel + 1, pool, s =>
    if h : 0 < pool.length then
      let x := pool.get ⟨s % pool.length, Nat.mod_lt _ h⟩
      x :: fyAux fuel (pool.erase x) (lcg s)
    else []

/-- A deterministic shuffle of a pool of indices, a pure function of the
seed. -/
def fisher_yates (pool : List Nat) (seed : Nat) : List Nat :=
  fyAux pool.length pool seed

/-- Modelled from the spec and sklearn's documented contract: the fold sizes
of `KFold(n_splits=K)` over `n` samples: each fold has `n // K` samples, and
the first `n % K` folds get one extra. -/
def kfold_fold_sizes (n K : Nat) : List Nat :=
  (List.range K).map (fun i => n / K + if i < n % K then 1 else 0)

/-- Cut a list into consecutive chunks of the given sizes. -/
def chunked : List Nat → List Nat → List (List Nat)
  | [], _ => []
  | sz :: rest, xs => xs.take sz :: chunked rest (xs.drop sz)

/-- Modelled from the spec and sklearn's documented contract:
`KFold(n_splits=K, shuffle=True).split` over a dataset of `n` samples with
the RNG seeded by `seed`: shuffle `[0, ..., n-1]`, cut the shuffled array
into `K` consecutive test chunks, and pair each test chunk with the train
indices, i.e. the not-in-chunk indices in ascending order.  (sklearn's exact
Mersenne-Twister permutation is abstracted by the deterministic
`fisher_yates`; no claim depends on the particular permutation.) -/
def kfold_split (n K seed : Nat) : List (List Nat × List Nat) :=
  let shuffled := fisher_yates (List.range n) seed
  let tests := chunked (kfold_fold_sizes n K) shuffled
  tests.map (fun t => ((List.range n).filter (fun i => ! t.contains i), t))

/-- Modelled from the spec and sklearn's documented contract:
`KFold(..., random_state=rs)` where `rs = none` models `random_state=None`
(the shuffle draws on the ambient global RNG state) and `rs = some s` models
a fixed integer seed (the shuffle is independent of the ambient state). -/
def kfold_split_rs (n K : Nat) (rs : Option Nat) (ambient : Nat) :
    List (List Nat × List Nat) :=
  kfold_split n K (rs.getD ambient)

/-- The fold index sets computed by `cross_validate` (line 254):
`KFold(n_splits=n_splits, shuffle=True, random_state=42)` applied to the
dataset, as a function of the dataset size, the fold count and the ambient
RNG state. -/
def cv_split (n K ambient : Nat) : List (List Nat × List Nat) :=
  kfold_split_rs n K (some 42) ambient

/-- One entry of the `dloader` list built at lines 256-271: a pair of
`DataLoader`s over the same dataset whose `SubsetRandomSampler`s carry the
fold's train and validation index sets (the sampler's index set is
deterministic; only its iteration order is random). -/
structure CVFeeds where
  train_idx : List Nat
  val_idx : List Nat
  batch_size : Nat
deriving DecidableEq

/-- `np.mean` on a list of floats. -/
def np_mean (xs : List ℚ) : ℚ := xs.sum / (xs.length : ℚ)

/-- The population variance `np.var` (ddof = 0): mean of squared deviations
from the mean. -/
def np_var (xs : List ℚ) : ℚ :=
  (xs.map (fun x => (x - np_mean xs) ^ 2)).sum / (xs.length : ℚ)

/-- `np.std` on a list of floats: the square root of the population variance
(numpy's default ddof = 0). -/
noncomputable def np_std (xs : List ℚ) : ℝ := Real.sqrt ((np_var xs : ℚ) : ℝ)

/-- The aggregate loss-history dict of `cross_validate`:
`{"mean": [...], "std": [...]}`. -/
structure CVLoss where
  mean : List ℚ
  std : List ℝ

/-- Observable state of one `cross_validate` run: threaded model/optimizer
state, the aggregate history dict, the best aggregate loss, and the
checkpoint files written so far. -/
structure CVRun (μ γ ω : Type) where
  sim : SimState μ γ ω
  loss : CVLoss
  best : ℚ
  saved : List (SavedFile μ ω CVLoss)

/-- The inner fold loop of one epoch of `cross_validate` (lines 278-291):
`for fold in range(n_splits)`, run `single_fold_func` on that fold's feeds
(threading the single shared model/optimizer state through the folds) and
collect `floss[-1]`, the fold's final validation loss. -/
def cv_fold_loop (sff : CVFeeds → SimState μ γ ω → SimState μ γ ω × List ℚ)
    (dloader : List CVFeeds) (n_splits : Nat) (sim : SimState μ γ ω) :
    SimState μ γ ω × List ℚ :=
  (List.range n_splits).foldl
    (fun acc fold =>
      let r := sff (dloader.getD fold ⟨[], [], 0⟩) acc.1
      (r.1, acc.2 ++ [r.2.getLastD 0]))
    (sim, [])

/-- One epoch of `cross_validate` (lines 273-326): run all folds, append
`np.mean` and `np.std` of the fold losses to the aggregate history, write a
`"best"` checkpoint when the mean strictly improves on the best aggregate
loss (updating it), and always write a `"latest"` checkpoint carrying the
current best loss.  Both checkpoint call sites in `cross_validate` pass
every argument by keyword, so unlike in `train_model` they succeed. -/
noncomputable def cv_epoch
    (sff : CVFeeds → SimState μ γ ω → SimState μ γ ω × List ℚ)
    (dloader : List CVFeeds) (n_splits : Nat) (root_path model_name : String)
    (e : Nat) (r : CVRun μ γ ω) : CVRun μ γ ω :=
  let fr := cv_fold_loop sff dloader n_splits r.sim
  let m := np_mean fr.2
  let loss1 : CVLoss := ⟨r.loss.mean ++ [m], r.loss.std ++ [np_std fr.2]⟩
  let best1 := if m < r.best then m else r.best
  let savedB : List (SavedFile μ ω CVLoss) :=
    if m < r.best then
      [save_checkpoints fr.1.params fr.1.opt root_path model_name loss1 e m
        "best"]
    else []
  let fileL := save_checkpoints fr.1.params fr.1.opt root_path model_name
    loss1 e best1 "latest"
  ⟨fr.1, loss1, best1, r.saved ++ savedB ++ [fileL]⟩

/-- `cross_validate` (lines 214-326): split the dataset of size `n` with
`KFold(n_splits, shuffle=True, random_state=42)`, build one pair of feeds
per fold once, then run `epoches` epochs from `start_epoches`, each epoch
running `single_fold_func` (`sff`) over every fold in ascending order and
aggregating as in `cv_epoch`.  The injectable `single_fold_func` has the
same contract as `train_single_fold` (the source's default). -/
noncomputable def cross_validate (n : Nat)
    (sff : CVFeeds → SimState μ γ ω → SimState μ γ ω × List ℚ)
    (n_splits batch_size epoches start_epoches : Nat)
    (root_path model_name : String) (loss0 : CVLoss) (best0 : ℚ)
    (sim0 : SimState μ γ ω) (ambient : Nat) : CVRun μ γ ω :=
  let idx := cv_split n n_splits ambient
  let dloader := idx.map (fun p => CVFeeds.mk p.1 p.2 batch_size)
  (List.range' start_epoches epoches).foldl
    (fun r e => cv_epoch sff dloader n_splits root_path model_name e r)
    ⟨sim0, loss0, best0, []⟩

/-- A call to `cross_validate` with Python default-argument semantics for the
parameter `loss: Dict[str, float] = {"mean": [], "std": []}` (line 227): the
default dict is created once at function definition and shared, in-place
mutated, by every call that does not pass `loss`.  `dflt` is the current
contents of the default object; the second component of the result is its
contents after the call. -/
noncomputable def cross_validate_call (n : Nat)
    (sff : CVFeeds → SimState μ γ ω → SimState μ γ ω × List ℚ)
    (n_splits batch_size epoches start_epoches : Nat)
    (root_path model_name : String) (best0 : ℚ) (sim0 : SimState μ γ ω)
    (ambient : Nat) (dflt : CVLoss) (lossArg : Option CVLoss) :
    CVRun μ γ ω × CVLoss :=
  let l0 := lossArg.getD dflt
  let r := cross_validate n sff n_splits batch_size epoches start_epoches
    root_path model_name l0 best0 sim0 ambient
  (r, if lossArg.isNone then r.loss else dflt)

/-- A minimal deterministic environment over trivial model/optimizer state in
which each batch's payload is its loss value. -/
def unitEnv : TorchEnv Unit Unit Unit ℚ :=
  { fwdLoss := fun _ q => q
    backward := fun _ _ => ()
    stepP := fun _ _ _ => ()
    stepO := fun _ _ _ => () }

/-- The trivial initial simulation state. -/
def simU : SimState Unit Unit Unit := ⟨(), none, (), false⟩

/-- The stub feed of the spec's worked example: two batches of sizes 4 and 6
with per-batch losses 2.0 and 3.0, used for both phases. -/
def exFeeds : Feeds ℚ := ⟨[⟨4, 2⟩, ⟨6, 3⟩], [⟨4, 2⟩, ⟨6, 3⟩]⟩

/-- A stub `single_fold_func` that leaves the state unchanged and reports
train loss 0 and validation loss 1 on every fold. -/
def sffConst : CVFeeds → SimState Unit Unit Unit → SimState Unit Unit Unit × List ℚ :=
  fun _ s => (s, [0, 1])

/-- A stub `single_fold_func` whose reported validation loss is one more than
the fold's first validation index: on `exDloader` the five folds report
1, 2, 3, 4, 5. -/
def sffIdx : CVFeeds → SimState Unit Unit Unit → SimState Unit Unit Unit × List ℚ :=
  fun f s => (s, [0, ((f.val_idx.headD 0 : Nat) : ℚ) + 1])

/-- Five stub folds whose validation index sets are the singletons 0..4. -/
def exDloader : List CVFeeds :=
  [⟨[], [0], 0⟩, ⟨[], [1], 0⟩, ⟨[], [2], 0⟩, ⟨[], [3], 0⟩, ⟨[], [4], 0⟩]

/-- Helper: a validation-phase batch loop (gradient tracking disabled, no
`optimizer.step`) never changes the `opt` component of the state, whatever
the accumulator holds: per batch it only clears `p.grad`. -/
theorem foldl_false_opt (T : TorchEnv μ γ ω β) :
    ∀ (bs : List (Batch β)) (p : SimState μ γ ω × ℚ),
      (bs.foldl (phase_step T false) p).1.opt = p.1.opt
  | [], _ => rfl
  | b :: bs, p => by
    rw [List.foldl_cons, foldl_false_opt T bs]
    rfl

/-- Helper: restatement of `foldl_false_opt` for `run_phase`. -/
theorem run_phase_false_opt (T : TorchEnv μ γ ω β) (bs : List (Batch β))
    (st : SimState μ γ ω) : (run_phase T false bs st).1.opt = st.opt :=
  foldl_false_opt T bs (st, 0)

/-- Helper: on the worked example feed, `train_single_fold` reports
`(2.0 * 4 + 3.0 * 6) / 2 = 13` for both phases, whatever the entry state. -/
theorem tsf_ex_eval (st : SimState Unit Unit Unit) :
    (train_single_fold unitEnv exFeeds st).2 = [13, 13] := by
  simp [train_single_fold, run_phase, phase_step, run_batch, model_train,
    model_eval, unitEnv, exFeeds]
  norm_num

/-- C1: the claim states that each phase mean returned by the single-pass
trainer is the accumulated `loss_value * batch_size` sum divided by the
total number of examples in that phase's feed, e.g. `(2*4 + 3*6)/10 = 2.6`
for batches of sizes 4 and 6 with losses 2 and 3.  The code instead divides
by `len(dloader[dataset])`, the number of batches of the loader: on the
example feed each phase mean is `26 / 2 = 13`, not `2.6`.  The first
conjunct characterises the division performed by the code, the rest
evaluates it on the claim's own example. -/
theorem c1_single_pass_mean_divides_by_batch_count :
    (∀ (μ γ ω β : Type) (T : TorchEnv μ γ ω β) (d : Feeds β)
        (st : SimState μ γ ω),
      (train_single_fold T d st).2 =
        [(run_phase T true d.train (model_train st)).2 / (d.train.length : ℚ),
         (run_phase T false d.val
             (model_eval (run_phase T true d.train (model_train st)).1)).2 /
           (d.val.length : ℚ)]) ∧
    (train_single_fold unitEnv exFeeds simU).2 = [13, 13] ∧
    (13 : ℚ) ≠ (2 * 4 + 3 * 6) / 10 := by
  refine ⟨fun μ γ ω β T d st => rfl, tsf_ex_eval simU, by norm_num⟩

/-- C2 counterexample: the field names of the record written by
`save_checkpoints` are not `epoch, model_state, optimizer_state, loss,
best_loss` as claimed. -/
theorem c2_field_names_counterexample :
    (save_checkpoints () () "." "model" (⟨[], []⟩ : TMLoss) 0 0
        "latest").record.map Prod.fst ≠
      ["epoch", "model_state", "optimizer_state", "loss", "best_loss"] := by
  decide

/-- C2 (amended): every record written by `save_checkpoints` is a five-field
record whose field names are exactly `epoch, model_state_dict,
optimizer_state_dict, loss, best_loss`. -/
theorem c2_checkpoint_field_names :
    ∀ (μ ω L : Type) (p : μ) (o : ω) (rp nm : String) (l : L) (e : Nat)
      (b : ℚ) (sfx : String),
      (save_checkpoints p o rp nm l e b sfx).record.map Prod.fst =
          ["epoch", "model_state_dict", "optimizer_state_dict", "loss",
            "best_loss"] ∧
      (save_checkpoints p o rp nm l e b sfx).record.length = 5 := by
  intros
  exact ⟨rfl, rfl⟩

/-- C3: during the validation phase of `train_single_fold` the optimizer's
state is never changed: `optimizer.step` is guarded by the train phase, and
`optimizer.zero_grad` touches only the parameter gradient slots, which are
not part of optimizer state.  First conjunct: a validation pass from any
state leaves `opt` unchanged.  Second conjunct: the optimizer state returned
by `train_single_fold` is exactly the optimizer state that entered the
validation pass (i.e. the one produced by the train pass). -/
theorem c3_val_phase_preserves_optimizer_state :
    ∀ (μ γ ω β : Type) (T : TorchEnv μ γ ω β),
      (∀ (bs : List (Batch β)) (st : SimState μ γ ω),
        (run_phase T false bs st).1.opt = st.opt) ∧
      (∀ (d : Feeds β) (st : SimState μ γ ω),
        (train_single_fold T d st).1.opt =
          (run_phase T true d.train (model_train st)).1.opt) := by
  intro μ γ ω β T
  refine ⟨fun bs st => run_phase_false_opt T bs st, fun d st => ?_⟩
  show (run_phase T false d.val
      (model_eval (run_phase T true d.train (model_train st)).1)).1.opt = _
  rw [run_phase_false_opt]
  rfl

/-- C4: the claim states that every `train_model` / `cross_validate` call
that leaves the `loss` argument to its default begins with a fresh empty
history.  In Python the default dict `{"train": [], "val": []}` (line 40)
resp. `{"mean": [], "std": []}` (line 227) is created once at function
definition and mutated in place by each defaulted call, so histories
accumulate across calls: after a first defaulted one-epoch call leaves one
entry in the default (second and fourth conjuncts), a second defaulted
one-epoch call ends with a two-entry history (first and third conjuncts)
instead of the fresh one-entry history the claim implies. -/
theorem c4_default_history_shared_across_calls :
    ((train_model_call unitEnv exFeeds 0 1 100 simU
        (train_model_call unitEnv exFeeds 0 1 100 simU ⟨[], []⟩ none).2
        none).1.1.loss.train.length = 2) ∧
    ((train_model_call unitEnv exFeeds 0 1 100 simU ⟨[], []⟩
        none).2.train.length = 1) ∧
    ((cross_validate_call 4 sffConst 2 2 1 0 "." "m" 100 simU 0
        (cross_validate_call 4 sffConst 2 2 1 0 "." "m" 100 simU 0 ⟨[], []⟩
          none).2
        none).1.loss.mean.length = 2) ∧
    ((cross_validate_call 4 sffConst 2 2 1 0 "." "m" 100 simU 0 ⟨[], []⟩
        none).2.mean.length = 1) := by
  have h13 : (13 : ℚ) < 100 := by norm_num
  refine ⟨?_, ?_, ?_, ?_⟩
  · simp [train_model_call, train_model, tm_loop, tm_epoch, tsf_ex_eval, h13,
      List.range']
  · simp [train_model_call, train_model, tm_loop, tm_epoch, tsf_ex_eval, h13,
      List.range']
  · simp [cross_validate_call, cross_validate, cv_epoch, cv_fold_loop,
      sffConst, np_mean, List.range_succ, List.range']
  · simp [cross_validate_call, cross_validate, cv_epoch, cv_fold_loop,
      sffConst, np_mean, List.range_succ, List.range']

/-- Helper: on the five-fold stub the collected per-fold validation losses
are 1..5, whatever the entry state. -/
theorem fl_eval (st : SimState Unit Unit Unit) :
    (cv_fold_loop sffIdx exDloader 5 st).2 = [1, 2, 3, 4, 5] := by
  simp [cv_fold_loop, sffIdx, exDloader, List.range_succ]
  norm_num

/-- Helper: the population standard deviation of 1..5 is the square root
of 2. -/
theorem np_std_ex : np_std [1, 2, 3, 4, 5] = Real.sqrt 2 := by
  have h : np_var [1, 2, 3, 4, 5] = 2 := by norm_num [np_var, np_mean]
  rw [np_std, h]
  norm_num

/-- Helper: dropping the first list of a double append. -/
theorem drop_len_append (l1 l2 l3 : List α) :
    ((l1 ++ l2) ++ l3).drop l1.length = l2 ++ l3 := by
  rw [List.append_assoc]
  exact List.drop_left _ _

/-- C5: the claim states that in both controllers a `"best"` checkpoint is
written for an epoch iff that epoch's new loss strictly improves on the
previous best, carrying the updated best loss.  This holds for every epoch
of `cross_validate` (first conjunct, over arbitrary inputs and fold
functions) but fails for `train_model`: its `save_checkpoints` call sites
raise `TypeError` (see `tm_epoch`), so on a one-epoch run whose validation
loss 13 strictly improves on the entering best 100 the best loss is updated
but no checkpoint at all is written and the call aborts (second conjunct). -/
theorem c5_best_checkpoint_iff_strict_improvement :
    (∀ (μ γ ω : Type)
        (sff : CVFeeds → SimState μ γ ω → SimState μ γ ω × List ℚ)
        (dloader : List CVFeeds) (ns : Nat) (rp nm : String) (e : Nat)
        (r : CVRun μ γ ω),
      ((∃ f ∈ (cv_epoch sff dloader ns rp nm e r).saved.drop r.saved.length,
          f.suffix = "best") ↔
        np_mean (cv_fold_loop sff dloader ns r.sim).2 < r.best) ∧
      (∀ f ∈ (cv_epoch sff dloader ns rp nm e r).saved.drop r.saved.length,
        f.suffix = "best" →
          f.best_loss = np_mean (cv_fold_loop sff dloader ns r.sim).2 ∧
          f.epoch = e)) ∧
    ((train_model unitEnv exFeeds 0 1 ⟨simU, ⟨[], []⟩, 100, []⟩).1.saved = []
      ∧ (train_model unitEnv exFeeds 0 1 ⟨simU, ⟨[], []⟩, 100, []⟩).2 =
        some PyErr.typeError
      ∧ (train_model unitEnv exFeeds 0 1 ⟨simU, ⟨[], []⟩, 100, []⟩).1.best =
        13
      ∧ (13 : ℚ) < 100) := by
  have h13 : (13 : ℚ) < 100 := by norm_num
  constructor
  · intro μ γ ω sff dloader ns rp nm e r
    by_cases hm : np_mean (cv_fold_loop sff dloader ns r.sim).2 < r.best
    · constructor
      · simp [cv_epoch, hm, drop_len_append, save_checkpoints]
      · intro f hf
        simp [cv_epoch, hm, drop_len_append] at hf
        rcases hf with hf | hf <;> subst hf <;>
          simp [save_checkpoints]
    · constructor
      · simp [cv_epoch, hm, drop_len_append, save_checkpoints]
      · intro f hf
        simp [cv_epoch, hm, drop_len_append] at hf
        subst hf
        simp [save_checkpoints]
  · refine ⟨?_, ?_, ?_, h13⟩ <;>
      simp [train_model, tm_loop, tm_epoch, tsf_ex_eval, h13, List.range']

/-- C5 witness: on a concrete five-fold stub whose aggregate mean 3 strictly
improves on the entering best 100, a `"best"` checkpoint is among the files
written by the epoch. -/
theorem c5_best_checkpoint_witness :
    ∃ f ∈ (cv_epoch sffIdx exDloader 5 "." "m" 0
        ⟨simU, ⟨[], []⟩, 100, []⟩).saved.drop 0, f.suffix = "best" := by
  have h := (c5_best_checkpoint_iff_strict_improvement.1 Unit Unit Unit
    sffIdx exDloader 5 "." "m" 0 ⟨simU, ⟨[], []⟩, 100, []⟩).1
  exact h.mpr (by rw [fl_eval]; norm_num [np_mean])

/-- C9: the claim states that both controllers write a `"latest"` checkpoint
unconditionally at the end of every epoch, carrying the current epoch index
and current best loss.  This holds for every epoch of `cross_validate`
(first conjunct, with no assumption on the direction of the loss), but fails
for `train_model`: its `save_checkpoints` call sites raise `TypeError` (see
`tm_epoch`), so a one-epoch run with a non-improving validation loss
(13 against best 1) writes nothing and aborts (second conjunct). -/
theorem c9_latest_checkpoint_every_epoch :
    (∀ (μ γ ω : Type)
        (sff : CVFeeds → SimState μ γ ω → SimState μ γ ω × List ℚ)
        (dloader : List CVFeeds) (ns : Nat) (rp nm : String) (e : Nat)
        (r : CVRun μ γ ω),
      ∃ f ∈ (cv_epoch sff dloader ns rp nm e r).saved.drop r.saved.length,
        f.suffix = "latest" ∧ f.epoch = e ∧
        f.best_loss = (cv_epoch sff dloader ns rp nm e r).best) ∧
    ((train_model unitEnv exFeeds 0 1 ⟨simU, ⟨[], []⟩, 1, []⟩).1.saved = []
      ∧ (train_model unitEnv exFeeds 0 1 ⟨simU, ⟨[], []⟩, 1, []⟩).2 =
        some PyErr.typeError
      ∧ ¬ (13 : ℚ) < 1) := by
  constructor
  · intro μ γ ω sff dloader ns rp nm e r
    by_cases hm : np_mean (cv_fold_loop sff dloader ns r.sim).2 < r.best <;>
      simp [cv_epoch, hm, drop_len_append, save_checkpoints]
  · have h13 : ¬ (13 : ℚ) < 1 := by norm_num
    refine ⟨?_, ?_, h13⟩ <;>
      simp [train_model, tm_loop, tm_epoch, tsf_ex_eval, h13, List.range']

/-- C9 witness: on a concrete five-fold stub with a non-improving aggregate
loss (mean 3 against best 1), the epoch still writes a `"latest"` checkpoint
carrying epoch 0 and the current best. -/
theorem c9_latest_checkpoint_witness :
    ∃ f ∈ (cv_epoch sffIdx exDloader 5 "." "m" 0
        ⟨simU, ⟨[], []⟩, 1, []⟩).saved.drop 0,
      f.suffix = "latest" ∧ f.epoch = 0 ∧
        f.best_loss =
          (cv_epoch sffIdx exDloader 5 "." "m" 0 ⟨simU, ⟨[], []⟩, 1, []⟩).best :=
  c9_latest_checkpoint_every_epoch.1 Unit Unit Unit sffIdx exDloader 5 "." "m"
    0 ⟨simU, ⟨[], []⟩, 1, []⟩

/-- C6: the claim states resume equivalence for the Epoch Controller:
`E` epochs from `S` then `E` epochs from `S + E`, continuing the same state,
equal one `2E`-epoch call from `S`.  The first conjunct proves this, for
every deterministic environment and every state component (loss history,
best loss, checkpoints, model/optimizer state), for the spec-modelled
controller `train_model_spec` with a working checkpoint store.  The source's
`train_model`, however, aborts every call with a `TypeError` at the first
checkpoint save (see `tm_epoch`), so each call runs at most one epoch: on a
deterministic stub, two one-epoch calls in sequence (catching the exception
and continuing from the returned state) leave a two-entry history while the
single two-epoch call leaves a one-entry history (remaining conjuncts). -/
theorem c6_resume_equivalence :
    (∀ (μ γ ω β : Type) (T : TorchEnv μ γ ω β) (d : Feeds β)
        (rp nm : String) (S E : Nat) (r0 : TMRun μ γ ω),
      train_model_spec T d rp nm (S + E) E (train_model_spec T d rp nm S E r0)
        = train_model_spec T d rp nm S (2 * E) r0) ∧
    ((train_model unitEnv exFeeds 1 1
        (train_model unitEnv exFeeds 0 1
          ⟨simU, ⟨[], []⟩, 100, []⟩).1).1.loss.val.length = 2 ∧
      (train_model unitEnv exFeeds 0 2
        ⟨simU, ⟨[], []⟩, 100, []⟩).1.loss.val.length = 1) := by
  constructor
  · intro μ γ ω β T d rp nm S E r0
    rw [train_model_spec, train_model_spec, train_model_spec,
      ← List.foldl_append, List.range'_append_1, two_mul]
  · have h13 : (13 : ℚ) < 100 := by norm_num
    constructor <;>
      simp [train_model, tm_loop, tm_epoch, tsf_ex_eval, h13, List.range']

/-- C7: the fold split computed by `cross_validate` uses
`KFold(n_splits, shuffle=True, random_state=42)`: with the fixed seed 42 the
shuffle does not consult the ambient RNG state, so two runs over the same
dataset and fold count (under arbitrary, possibly different, ambient RNG
states) produce identical fold index sets, namely the deterministic split
with seed 42. -/
theorem c7_kfold_split_deterministic :
    ∀ (n K a1 a2 : Nat), 2 ≤ K →
      cv_split n K a1 = cv_split n K a2 ∧
      cv_split n K a1 = kfold_split n K 42 :=
  fun _ _ _ _ _ => ⟨rfl, rfl⟩

/-- C7 witness: two splits of a 10-element dataset into 3 folds under
distinct ambient RNG states coincide. -/
theorem c7_kfold_split_deterministic_witness :
    2 ≤ 3 ∧
      (cv_split 10 3 0 = cv_split 10 3 1 ∧
        cv_split 10 3 0 = kfold_split 10 3 42) :=
  ⟨by decide, c7_kfold_split_deterministic 10 3 0 1 (by decide)⟩

/-- Helper: the fold loop of `cv_epoch` collects exactly one loss per fold. -/
theorem cv_fold_loop_aux_len
    (sff : CVFeeds → SimState μ γ ω → SimState μ γ ω × List ℚ)
    (dloader : List CVFeeds) :
    ∀ (l : List Nat) (p : SimState μ γ ω × List ℚ),
      ((l.foldl (fun acc fold =>
          let r := sff (dloader.getD fold ⟨[], [], 0⟩) acc.1
          (r.1, acc.2 ++ [r.2.getLastD 0])) p).2).length =
        p.2.length + l.length
  | [], _ => rfl
  | x :: l, p => by
    rw [List.foldl_cons, cv_fold_loop_aux_len sff dloader l]
    simp
    omega

/-- Helper: `cv_fold_loop` over `n_splits` folds collects `n_splits`
validation losses. -/
theorem cv_fold_loop_len
    (sff : CVFeeds → SimState μ γ ω → SimState μ γ ω × List ℚ)
    (dloader : List CVFeeds) (ns : Nat) (sim : SimState μ γ ω) :
    (cv_fold_loop sff dloader ns sim).2.length = ns := by
  rw [cv_fold_loop, cv_fold_loop_aux_len]
  simp

/-- C8: after the folds of an epoch of `cross_validate` complete, the value
appended to `history["mean"]` is the arithmetic mean and the value appended
to `history["std"]` is the population standard deviation (square root of the
ddof-0 variance) of the per-fold final validation losses, of which there is
one per fold (first conjunct).  On a five-fold stub reporting validation
losses 1..5 the appended aggregates are exactly 3 and the square root of 2
(second conjunct, the spec's worked example). -/
theorem c8_aggregate_mean_and_population_std :
    (∀ (μ γ ω : Type)
        (sff : CVFeeds → SimState μ γ ω → SimState μ γ ω × List ℚ)
        (dloader : List CVFeeds) (ns : Nat) (rp nm : String) (e : Nat)
        (r : CVRun μ γ ω),
      (cv_epoch sff dloader ns rp nm e r).loss.mean =
        r.loss.mean ++
          [(cv_fold_loop sff dloader ns r.sim).2.sum /
            ((cv_fold_loop sff dloader ns r.sim).2.length : ℚ)] ∧
      (cv_epoch sff dloader ns rp nm e r).loss.std =
        r.loss.std ++
          [Real.sqrt
            ((((cv_fold_loop sff dloader ns r.sim).2.map
                  (fun x => (x - np_mean (cv_fold_loop sff dloader ns r.sim).2)
                    ^ 2)).sum /
                ((cv_fold_loop sff dloader ns r.sim).2.length : ℚ) : ℚ) : ℝ)] ∧
      (cv_fold_loop sff dloader ns r.sim).2.length = ns) ∧
    ((cv_epoch sffIdx exDloader 5 "." "m" 0
        ⟨simU, ⟨[], []⟩, 100, []⟩).loss.mean = [3] ∧
      (cv_epoch sffIdx exDloader 5 "." "m" 0
        ⟨simU, ⟨[], []⟩, 100, []⟩).loss.std = [Real.sqrt 2]) := by
  constructor
  · intro μ γ ω sff dloader ns rp nm e r
    exact ⟨rfl, rfl, cv_fold_loop_len sff dloader ns r.sim⟩
  · constructor
    · simp [cv_epoch, fl_eval, np_mean]
      norm_num
    · simp [cv_epoch, fl_eval, np_std_ex]

/-- Helper: with enough fuel, the Fisher-Yates draw is a permutation of the
pool: each step moves one pool element to the front of the result. -/
theorem fyAux_perm : ∀ (fuel : Nat) (pool : List Nat) (s : Nat),
    pool.length ≤ fuel → (fyAux fuel pool s).Perm pool
  | 0, pool, _, h => by
    have hp : pool = [] := List.length_eq_zero.mp (Nat.le_zero.mp h)
    subst hp
    exact List.Perm.refl _
  | fuel + 1, pool, s, h => by
    rw [fyAux]
    by_cases hp : 0 < pool.length
    · rw [dif_pos hp]
      have hmem : pool.get ⟨s % pool.length, Nat.mod_lt _ hp⟩ ∈ pool :=
        pool.get_mem _ _
      have hlen : (pool.erase
          (pool.get ⟨s % pool.length, Nat.mod_lt _ hp⟩)).length =
          pool.length - 1 := List.length_erase_of_mem hmem
      have ih := fyAux_perm fuel
        (pool.erase (pool.get ⟨s % pool.length, Nat.mod_lt _ hp⟩)) (lcg s)
        (by omega)
      exact (ih.cons _).trans (List.perm_cons_erase hmem).symm
    · rw [dif_neg hp]
      have hp0 : pool = [] := by
        cases pool with
        | nil => rfl
        | cons a l => exact absurd (by simp) hp
      subst hp0
      exact List.Perm.refl _

/-- Helper: the modelled shuffle permutes its pool. -/
theorem fisher_yates_perm (pool : List Nat) (seed : Nat) :
    (fisher_yates pool seed).Perm pool :=
  fyAux_perm pool.length pool seed le_rfl

/-- Helper: cutting a list into chunks whose sizes sum to its length and
flattening gives the list back. -/
theorem chunked_flatten : ∀ (sizes : List Nat) (xs : List Nat),
    sizes.sum = xs.length → (chunked sizes xs).flatten = xs
  | [], xs, h => by
    have hx : xs = [] := by
      have h0 : xs.length = 0 := by simpa using h.symm
      exact List.length_eq_zero.mp h0
    subst hx
    rfl
  | sz :: rest, xs, h => by
    have hr : rest.sum = (xs.drop sz).length := by
      rw [List.length_drop]
      simp only [List.sum_cons] at h
      omega
    rw [chunked, List.flatten_cons, chunked_flatten rest (xs.drop sz) hr,
      List.take_append_drop]

/-- Helper: summing `a` plus an indicator of `i < b` over `i < K`. -/
theorem range_map_sum : ∀ (K a b : Nat),
    ((List.range K).map (fun i => a + if i < b then 1 else 0)).sum =
      K * a + min b K
  | 0, _, _ => by simp
  | K + 1, a, b => by
    rw [List.range_succ, List.map_append, List.sum_append,
      range_map_sum K a b]
    by_cases hb : K < b
    · have h1 : min b K = K := min_eq_right (Nat.le_of_lt hb)
      have h2 : min b (K + 1) = K + 1 := min_eq_right hb
      simp [hb, h1, h2, Nat.succ_mul]
      omega
    · have h1 : min b K = b := min_eq_left (Nat.not_lt.mp hb)
      have h2 : min b (K + 1) = b := min_eq_left (by omega)
      simp [hb, h1, h2, Nat.succ_mul]
      omega

/-- Helper: the sklearn fold sizes (`n // K` each, first `n % K` folds one
larger) sum to the sample count. -/
theorem kfold_fold_sizes_sum (n K : Nat) (hK : 0 < K) :
    (kfold_fold_sizes n K).sum = n := by
  rw [kfold_fold_sizes, range_map_sum]
  have h1 : n % K < K := Nat.mod_lt _ hK
  have h2 := Nat.div_add_mod n K
  omega

/-- C10: the validation index sets of the folds produced by
`cross_validate`'s split partition the dataset index range: flattened in
fold order they are a permutation of `0..n-1` (each index appears exactly
once across all validation sets), and in particular the validation sets are
pairwise disjoint. -/
theorem c10_folds_partition_index_range :
    ∀ (n K ambient : Nat), 1 ≤ K →
      (((cv_split n K ambient).map Prod.snd).flatten).Perm (List.range n) ∧
      ((cv_split n K ambient).map Prod.snd).Pairwise List.Disjoint := by
  intro n K a hK
  have hmap : (cv_split n K a).map Prod.snd =
      chunked (kfold_fold_sizes n K) (fisher_yates (List.range n) 42) := by
    simp [cv_split, kfold_split_rs, kfold_split, List.map_map]
    exact List.map_id _
  have hperm0 : (fisher_yates (List.range n) 42).Perm (List.range n) :=
    fisher_yates_perm _ _
  have hflat : (chunked (kfold_fold_sizes n K)
      (fisher_yates (List.range n) 42)).flatten =
      fisher_yates (List.range n) 42 :=
    chunked_flatten _ _
      (by rw [kfold_fold_sizes_sum n K hK, hperm0.length_eq,
        List.length_range])
  have hperm : (((cv_split n K a).map Prod.snd).flatten).Perm
      (List.range n) := by
    rw [hmap, hflat]
    exact hperm0
  refine ⟨hperm, ?_⟩
  have hnodup : (((cv_split n K a).map Prod.snd).flatten).Nodup :=
    hperm.symm.nodup (List.nodup_range n)
  exact (List.nodup_flatten.mp hnodup).2

/-- C10 witness: splitting a 7-element dataset into 3 folds, the validation
sets partition 0..6. -/
theorem c10_folds_partition_witness :
    1 ≤ 3 ∧
      ((((cv_split 7 3 0).map Prod.snd).flatten).Perm (List.range 7) ∧
        ((cv_split 7 3 0).map Prod.snd).Pairwise List.Disjoint) :=
  ⟨by decide, c10_folds_partition_index_range 7 3 0 (by decide)⟩
